import Mathlib

/-!
Verification development for the QR redirect-resolution and scan-analytics
subsystem.

The repository ships the React client under `frontend/src` (embedded below for
the list-transformation and filter logic the client owns) while the Django
backend (`qr_generator/models.py`, `api_views.py`, `analytics.py`) is not part
of the visible sources; the backend operations are therefore modelled from the
specification's contracts (TokenRegistry, RedirectRegistry,
ScanIngestionPipeline, AnalyticsAggregator) and each such definition carries a
doc comment saying so.
-/

/-! ## Data model (spec section 3) -/

/-- Modelled from the spec: the three code variants
`{static_url, file, dynamic}` of the Code data model; the backend
`models.py` is not under the visible sources. -/
inductive Variant
  | static_url
  | file
  | dynamic
deriving DecidableEq, Repr

/-- Modelled from the spec: the Code record of the data model. `destination`
holds the literal URL for `static_url`, the blob reference for `file`, and the
mutable current target for `dynamic`; `public_token` is the opaque string the
printed graphic encodes. -/
structure Code where
  id : Nat
  public_token : String
  variant : Variant
  destination : String
  display_name : Option String
  is_active : Bool
  created_at : Nat
  updated_at : Nat
deriving DecidableEq, Repr

/-- Modelled from the spec: the partial-update request
`{destination?, display_name?, is_active?}` of the mutation endpoint; `none`
means the field was not provided. -/
structure UpdateReq where
  destination : Option String
  display_name : Option String
  is_active : Option Bool
deriving DecidableEq, Repr

/-- Modelled from the spec: the error taxonomy entry `InvalidOperation`
(attempted mutation of a non-dynamic code, or malformed destination URL on
update). -/
inductive ApiError
  | InvalidOperation
deriving DecidableEq, Repr

/-- Modelled from the spec: the result type of `currentDestination`
(`Destination | Inactive | Gone`). `Gone` appears in the contract signature
and is kept for faithfulness although no rule of the spec produces it. -/
inductive Resolution
  | dest (url : String)
  | Inactive
  | Gone
deriving DecidableEq, Repr

/-! ## RedirectRegistry (spec section 4.2) -/

/-- Boolean test that the first list is an initial segment of the second,
stated over character lists so that concrete instances evaluate. -/
def startsWithChars : List Char → List Char → Bool
  | [], _ => true
  | _ :: _, [] => false
  | p :: ps, c :: cs => p == c && startsWithChars ps cs

/-- Modelled from the spec: a new destination URL is validated as a
well-formed absolute URL (an http or https scheme followed by a nonempty
remainder); empty or malformed strings are rejected before persisting. The
backend validator is not under the visible sources. -/
def isAbsoluteUrl (s : String) : Bool :=
  (startsWithChars "http://".data s.data && s.data.length > 7) ||
  (startsWithChars "https://".data s.data && s.data.length > 8)

/-- Modelled from the spec: applying the provided fields of a partial update
to a Code; partial updates only touch provided fields. -/
def applyReq (c : Code) (r : UpdateReq) : Code :=
  { c with
    destination := r.destination.getD c.destination
    display_name := match r.display_name with
      | some n => some n
      | none => c.display_name
    is_active := r.is_active.getD c.is_active }

/-- Modelled from the spec: the mutation contract
`update(code_id, {destination?, display_name?, is_active?})`. Only `dynamic`
codes accept updates; a provided destination must be a well-formed absolute
URL, otherwise the request fails with `InvalidOperation` before anything is
persisted. -/
def update (c : Code) (r : UpdateReq) : Except ApiError Code :=
  if c.variant = Variant.dynamic then
    match r.destination with
    | some d =>
      if isAbsoluteUrl d then Except.ok (applyReq c r)
      else Except.error ApiError.InvalidOperation
    | none => Except.ok (applyReq c r)
  else Except.error ApiError.InvalidOperation

/-- Modelled from the spec: the state transition induced by an update request;
a failed update persists nothing, so the stored record is unchanged. -/
def applyUpdate (c : Code) (r : UpdateReq) : Code :=
  match update c r with
  | Except.ok c' => c'
  | Except.error _ => c

/-- Modelled from the spec: the stored record after a sequence of update
requests (the only operations that mutate a Code). -/
def applyAll (c : Code) (rs : List UpdateReq) : Code :=
  rs.foldl applyUpdate c

/-- Modelled from the spec: the resolution contract
`currentDestination(code)`. Static and file codes return their fixed
destination unconditionally; a dynamic code returns its live destination when
active and `Inactive` otherwise. -/
def currentDestination (c : Code) : Resolution :=
  match c.variant with
  | Variant.dynamic =>
    if c.is_active then Resolution.dest c.destination else Resolution.Inactive
  | _ => Resolution.dest c.destination

/-! ## TokenRegistry (spec section 4.1) -/

/-- Modelled from the spec: the TokenRegistry state, a table from opaque
public tokens to internal resource ids together with the entropy source for
issuing fresh tokens. The backend table is not under the visible sources. -/
structure Registry where
  entries : List (String × Nat)
  counter : Nat
deriving DecidableEq, Repr

/-- Modelled from the spec: the registry before any token has been issued. -/
def Registry.empty : Registry := ⟨[], 0⟩

/-- Modelled from the spec: token generation with enough entropy that
repeated issuance yields pairwise distinct tokens with overwhelming
probability; the model realises that guarantee deterministically by issuing a
token of a length never used before. -/
def freshToken (n : Nat) : String := String.mk (List.replicate (n + 1) 'x')

/-- Modelled from the spec: `issue(internal_id) -> public_token`; returns the
extended registry together with the newly issued token. -/
def issue (r : Registry) (x : Nat) : Registry × String :=
  let t := freshToken r.counter
  (⟨(t, x) :: r.entries, r.counter + 1⟩, t)

/-- Modelled from the spec: `resolve(public_token) -> internal_id | NotFound`,
a pure lookup; `none` is the uniform `NotFound` outcome. -/
def resolve (r : Registry) (t : String) : Option Nat :=
  r.entries.lookup t

/-- Modelled from the spec: the registry after issuing tokens for a whole
list of internal ids in order. -/
def issueAll (r : Registry) (xs : List Nat) : Registry :=
  xs.foldl (fun s x => (issue s x).1) r

/-- Modelled from the spec: the payload embedded in the rendered image of a
code is the code's `public_token` itself, for every variant (persisted layout
requirement; the rendering collaborator `render(payload, format)` is
external). -/
def renderPayload (c : Code) : String := c.public_token

/-! ## ScanEvent and AnalyticsAggregator (spec sections 3, 4.4, 4.5) -/

/-- Modelled from the spec: the append-only ScanEvent fact row; geolocation
and device fields are independently nullable. -/
structure ScanEvent where
  code_id : Nat
  scanned_at : Nat
  country : Option String
  city : Option String
  device_type : Option String
  browser : Option String
  os : Option String
  client_fingerprint : String
deriving DecidableEq, Repr

/-- Modelled from the spec: the enriched facts produced by the
GeoDeviceEnricher for one request, all fields independently nullable. -/
structure Enriched where
  country : Option String
  city : Option String
  device_type : Option String
  browser : Option String
  os : Option String
deriving DecidableEq, Repr

/-- Modelled from the spec: assembling the ScanEvent recorded at ingestion
time from the resolved code id, the server timestamp and the enriched
facts. -/
def mkScanEvent (cid : Nat) (now : Nat) (facts : Enriched) (fp : String) :
    ScanEvent :=
  { code_id := cid
    scanned_at := now
    country := facts.country
    city := facts.city
    device_type := facts.device_type
    browser := facts.browser
    os := facts.os
    client_fingerprint := fp }

/-- Modelled from the spec: `record(code_id, enriched_facts)` of the
ScanIngestionPipeline appends one event to the append-only log. -/
def record (events : List ScanEvent) (e : ScanEvent) : List ScanEvent :=
  e :: events

/-- Modelled from the spec: the resolution endpoint receives the payload a
generic reader scanned, resolves it through the TokenRegistry and records a
scan event for the resolved code, independent of the code's variant; an
unknown token records nothing. -/
def handleScan (reg : Registry) (events : List ScanEvent) (payload : String)
    (facts : Enriched) (fp : String) (now : Nat) : List ScanEvent :=
  match resolve reg payload with
  | some cid => record events (mkScanEvent cid now facts fp)
  | none => events

/-- Modelled from the spec: the optional conjunctive filter predicate of
`summarize` over the four facets; a present filter is an exact-match
constraint on the corresponding event field, an absent one imposes no
constraint. -/
structure Filters where
  country : Option String
  city : Option String
  device_type : Option String
  browser : Option String
deriving DecidableEq, Repr

/-- Modelled from the spec: the empty filter set (no constraint on any
facet). -/
def noFilters : Filters := ⟨none, none, none, none⟩

/-- Modelled from the spec: whether one ScanEvent satisfies every present
filter (conjunctive exact match). -/
def matchesFilters (f : Filters) (e : ScanEvent) : Bool :=
  (match f.country with
    | none => true
    | some v => e.country == some v) &&
  (match f.city with
    | none => true
    | some v => e.city == some v) &&
  (match f.device_type with
    | none => true
    | some v => e.device_type == some v) &&
  (match f.browser with
    | none => true
    | some v => e.browser == some v)

/-- Modelled from the spec: all ScanEvents recorded for one code. -/
def eventsFor (events : List ScanEvent) (cid : Nat) : List ScanEvent :=
  events.filter (fun e => e.code_id == cid)

/-- Modelled from the spec: the subset of the §4.5 `Stats` output that the
claims under verification mention. -/
structure Stats where
  total_scans : Nat
  unique_users : Nat
deriving DecidableEq, Repr

/-- Modelled from the spec: `summarize(code_id, filters) -> Stats`;
`total_scans` counts the matching ScanEvents and `unique_users` counts the
distinct client fingerprints among them. -/
def summarize (events : List ScanEvent) (cid : Nat) (f : Filters) : Stats :=
  let matching := (eventsFor events cid).filter (matchesFilters f)
  { total_scans := matching.length
    unique_users := (matching.map (fun e => e.client_fingerprint)).dedup.length }

/-! ## Client embeddings (frontend sources under src) -/

/-- One entry of the client's QR-code list as served by the list endpoint and
held in the `qrCodes` state of `CheckAnalytics`. -/
structure QRItem where
  id : Nat
  qr_type : String
  name : String
  content : String
  qr_image : String
  is_active : Bool
  scan_count : Nat
  created_at : Nat
deriving DecidableEq, Repr

/-- Embeds `handleUpdateDynamic` of `CheckAnalytics`: after a successful
update the client replaces, position by position, each list entry whose `id`
equals the updated id with the record returned by the server
(`qrCodes.map(qr => qr.id === qrId ? response.qr_code : qr)`). -/
def replaceUpdated (qrCodes : List QRItem) (qrId : Nat) (updated : QRItem) :
    List QRItem :=
  qrCodes.map (fun qr => if qr.id == qrId then updated else qr)

/-- Embeds `filteredQRCodes` of `CheckAnalytics`: the displayed list is the
full list for the `all` tab and otherwise the entries whose `qr_type` equals
the selected tab. -/
def filteredQRCodes (fil : String) (qrCodes : List QRItem) : List QRItem :=
  if fil == "all" then qrCodes
  else qrCodes.filter (fun qr => qr.qr_type == fil)

/-- Embeds the `filters` state of `Analytics`: the four text values the
filter form holds, initially all empty. -/
structure ClientFilters where
  country : String
  city : String
  device : String
  browser : String
deriving DecidableEq, Repr

/-- Embeds the initial `filters` state of `Analytics`
(`{country: '', city: '', device: '', browser: ''}`). -/
def initialFilters : ClientFilters := ⟨"", "", "", ""⟩

/-- Embeds the query parameters `getAnalytics` sends: the `filters` object is
passed through as request params unchanged, so the keys on the wire are
exactly the state's keys. -/
def clientFilterParams (f : ClientFilters) : List (String × String) :=
  [("country", f.country), ("city", f.city),
   ("device", f.device), ("browser", f.browser)]

/-- Modelled from the spec together with the client: a facet filter arrives
applied exactly when its text value is nonempty, and an empty text imposes no
constraint. -/
def toServerFilters (f : ClientFilters) : Filters :=
  { country := if f.country = "" then none else some f.country
    city := if f.city = "" then none else some f.city
    device_type := if f.device = "" then none else some f.device
    browser := if f.browser = "" then none else some f.browser }

/-! ## Lemmas about updates -/

theorem applyAll_nil (c : Code) : applyAll c [] = c := rfl

theorem applyAll_cons (c : Code) (r : UpdateReq) (rs : List UpdateReq) :
    applyAll c (r :: rs) = applyAll (applyUpdate c r) rs := rfl

theorem applyUpdate_of_error (c : Code) (r : UpdateReq) (e : ApiError)
    (h : update c r = Except.error e) : applyUpdate c r = c := by
  simp [applyUpdate, h]

theorem update_ok_elim (c c' : Code) (r : UpdateReq)
    (h : update c r = Except.ok c') :
    c.variant = Variant.dynamic ∧ c' = applyReq c r := by
  unfold update at h
  by_cases hv : c.variant = Variant.dynamic
  · refine ⟨hv, ?_⟩
    rw [if_pos hv] at h
    cases hd : r.destination with
    | some d =>
      rw [hd] at h
      by_cases hu : isAbsoluteUrl d
      · simpa [hu] using h.symm
      · simp [hu] at h
    | none =>
      rw [hd] at h
      simpa using h.symm
  · rw [if_neg hv] at h
    simp at h

theorem applyUpdate_public_token (c : Code) (r : UpdateReq) :
    (applyUpdate c r).public_token = c.public_token := by
  unfold applyUpdate
  cases h : update c r with
  | ok c' =>
    obtain ⟨_, hc'⟩ := update_ok_elim c c' r h
    simp [hc', applyReq]
  | error e => rfl

theorem applyAll_public_token (rs : List UpdateReq) (c : Code) :
    (applyAll c rs).public_token = c.public_token := by
  induction rs generalizing c with
  | nil => rfl
  | cons r rs ih =>
    rw [applyAll_cons, ih, applyUpdate_public_token]

theorem applyUpdate_destination (c : Code) (r : UpdateReq) :
    (applyUpdate c r).destination = c.destination ∨
      r.destination = some (applyUpdate c r).destination := by
  unfold applyUpdate
  cases h : update c r with
  | ok c' =>
    obtain ⟨_, hc'⟩ := update_ok_elim c c' r h
    cases hd : r.destination with
    | some d => right; simp [hc', applyReq, hd]
    | none => left; simp [hc', applyReq, hd]
  | error e => left; rfl

theorem applyAll_of_all_fail (rs : List UpdateReq) (c : Code)
    (h : ∀ r ∈ rs, ∃ e, update c r = Except.error e) :
    applyAll c rs = c := by
  induction rs with
  | nil => rfl
  | cons r rs ih =>
    obtain ⟨e, he⟩ := h r (List.mem_cons_self r rs)
    rw [applyAll_cons, applyUpdate_of_error c r e he]
    exact ih (fun r' hr' => h r' (List.mem_cons_of_mem r hr'))

theorem applyAll_destination_explicit (rs : List UpdateReq) (c : Code) :
    (applyAll c rs).destination = c.destination ∨
      ∃ r ∈ rs, r.destination = some (applyAll c rs).destination := by
  induction rs generalizing c with
  | nil => left; rfl
  | cons r rs ih =>
    rw [applyAll_cons]
    rcases ih (applyUpdate c r) with h | ⟨r', hr', hd⟩
    · rcases applyUpdate_destination c r with h₀ | h₀
      · left; rw [h, h₀]
      · right; exact ⟨r, List.mem_cons_self r rs, by rw [h₀, h]⟩
    · right; exact ⟨r', List.mem_cons_of_mem r hr', hd⟩

example : isAbsoluteUrl "https://a.example" = true := by decide
example : isAbsoluteUrl "" = false := by decide
example : isAbsoluteUrl "notaurl" = false := by decide

/-! ## Lemmas about the token registry -/

theorem freshToken_length (n : Nat) : (freshToken n).length = n + 1 := by
  simp [freshToken, String.length]

/-- Invariant preserved by issuance: every stored token is no longer than the
counter, and tokens strictly shrink along the entry list. -/
def RegistryInv (r : Registry) : Prop :=
  (∀ p ∈ r.entries, (p.1 : String).length ≤ r.counter) ∧
  r.entries.Pairwise (fun a b => (b.1 : String).length < (a.1 : String).length)

theorem registryInv_empty : RegistryInv Registry.empty := by
  constructor
  · intro p hp; simp [Registry.empty] at hp
  · simp [Registry.empty]

theorem registryInv_issue (r : Registry) (x : Nat) (h : RegistryInv r) :
    RegistryInv (issue r x).1 := by
  obtain ⟨hb, hp⟩ := h
  constructor
  · intro p hp'
    simp only [issue, List.mem_cons] at hp' ⊢
    rcases hp' with hh | ht
    · rw [hh]; simp [freshToken_length]
    · exact Nat.le_succ_of_le (hb p ht)
  · simp only [issue, List.pairwise_cons]
    refine ⟨?_, hp⟩
    intro p hp'
    have := hb p hp'
    rw [freshToken_length]
    omega

theorem registryInv_issueAll (xs : List Nat) (r : Registry)
    (h : RegistryInv r) : RegistryInv (issueAll r xs) := by
  induction xs generalizing r with
  | nil => exact h
  | cons x xs ih => exact ih _ (registryInv_issue r x h)

theorem tokens_distinct_of_inv (r : Registry) (h : RegistryInv r) :
    (r.entries.map Prod.fst).Pairwise (fun a b => a ≠ b) := by
  rw [List.pairwise_map]
  exact h.2.imp (fun hlt heq => by rw [heq] at hlt; omega)

/-! ## Claim theorems -/

/-- C7: resolving the token issued for an internal id x returns x, and the
tokens produced by repeated issuance (from the empty registry) are pairwise
distinct. -/
theorem resolve_issue_roundtrip_and_distinct (r : Registry) (x : Nat)
    (xs : List Nat) :
    resolve (issue r x).1 (issue r x).2 = some x ∧
    ((issueAll Registry.empty xs).entries.map Prod.fst).Pairwise
      (fun a b => a ≠ b) := by
  constructor
  · simp [resolve, issue, List.lookup]
  · exact tokens_distinct_of_inv _ (registryInv_issueAll xs _ registryInv_empty)

/-- C3: `summarize` with no filters reports `total_scans` equal to the number
of all ScanEvents recorded for the code, and any filter set yields a
`total_scans` no larger than the unfiltered one. -/
theorem summarize_unfiltered_count_and_monotone (events : List ScanEvent)
    (cid : Nat) (f : Filters) :
    (summarize events cid noFilters).total_scans =
      (eventsFor events cid).length ∧
    (summarize events cid f).total_scans ≤
      (summarize events cid noFilters).total_scans := by
  have hall : (eventsFor events cid).filter (matchesFilters noFilters) =
      eventsFor events cid := by
    apply List.filter_eq_self.mpr
    intro e _
    simp [matchesFilters, noFilters]
  constructor
  · simp [summarize, hall]
  · simp only [summarize, hall]
    exact List.length_filter_le _ _

/-- C4: updating a non-dynamic code always fails with `InvalidOperation` and
leaves the stored record unchanged. -/
theorem update_nondynamic_invalid (c : Code) (r : UpdateReq)
    (h : c.variant ≠ Variant.dynamic) :
    update c r = Except.error ApiError.InvalidOperation ∧
    applyUpdate c r = c := by
  have hu : update c r = Except.error ApiError.InvalidOperation := by
    simp [update, h]
  exact ⟨hu, applyUpdate_of_error c r _ hu⟩

/-- C4 witness: a concrete static-url code rejects a concrete update and is
left unchanged. -/
theorem update_nondynamic_invalid_witness :
    update
      { id := 3, public_token := "tk", variant := Variant.static_url,
        destination := "https://s.example", display_name := none,
        is_active := true, created_at := 0, updated_at := 0 }
      { destination := some "https://new.example", display_name := none,
        is_active := none } = Except.error ApiError.InvalidOperation ∧
    applyUpdate
      { id := 3, public_token := "tk", variant := Variant.static_url,
        destination := "https://s.example", display_name := none,
        is_active := true, created_at := 0, updated_at := 0 }
      { destination := some "https://new.example", display_name := none,
        is_active := none } =
      { id := 3, public_token := "tk", variant := Variant.static_url,
        destination := "https://s.example", display_name := none,
        is_active := true, created_at := 0, updated_at := 0 } :=
  update_nondynamic_invalid _ _ (by decide)

/-- C8: a destination update whose new URL fails absolute-URL validation
(in particular the empty string) is rejected with `InvalidOperation` and the
stored record, its destination included, is unchanged. -/
theorem malformed_destination_rejected (c : Code) (d : String)
    (nm : Option String) (act : Option Bool)
    (h : c.variant = Variant.dynamic) (hbad : isAbsoluteUrl d = false) :
    update c { destination := some d, display_name := nm, is_active := act } =
      Except.error ApiError.InvalidOperation ∧
    applyUpdate c
      { destination := some d, display_name := nm, is_active := act } = c := by
  have hu : update c
      { destination := some d, display_name := nm, is_active := act } =
      Except.error ApiError.InvalidOperation := by
    simp [update, h, hbad]
  exact ⟨hu, applyUpdate_of_error c _ _ hu⟩

/-- C8 witness: a concrete dynamic code rejects the empty destination string
and keeps its stored fields. -/
theorem malformed_destination_rejected_witness :
    update
      { id := 4, public_token := "dq", variant := Variant.dynamic,
        destination := "https://a.example", display_name := none,
        is_active := true, created_at := 0, updated_at := 0 }
      { destination := some "", display_name := none, is_active := none } =
      Except.error ApiError.InvalidOperation ∧
    applyUpdate
      { id := 4, public_token := "dq", variant := Variant.dynamic,
        destination := "https://a.example", display_name := none,
        is_active := true, created_at := 0, updated_at := 0 }
      { destination := some "", display_name := none, is_active := none } =
      { id := 4, public_token := "dq", variant := Variant.dynamic,
        destination := "https://a.example", display_name := none,
        is_active := true, created_at := 0, updated_at := 0 } :=
  malformed_destination_rejected _ "" none none (by rfl) (by decide)

/-- C1 counterexample: for an inactive dynamic code, an update that sets the
destination to D succeeds, yet the subsequent `currentDestination` call
returns `Inactive`, not D. -/
theorem dest_update_visible_counterexample :
    (update
      { id := 1, public_token := "tok", variant := Variant.dynamic,
        destination := "https://a.example", display_name := none,
        is_active := false, created_at := 0, updated_at := 0 }
      { destination := some "https://b.example", display_name := none,
        is_active := none }).map currentDestination =
      Except.ok Resolution.Inactive ∧
    Resolution.Inactive ≠ Resolution.dest "https://b.example" := by
  exact ⟨rfl, by decide⟩

/-- C1 (amended): after an update that sets the destination to D succeeds,
the stored destination is D; while no further update succeeds, the stored
record is unchanged, so every subsequent `currentDestination` call returns D
whenever the code is active (and `Inactive` while it is disabled); and no
observer ever sees a destination that was never explicitly provided by some
update. -/
theorem dest_update_persists (c c₁ : Code) (r : UpdateReq) (D : String)
    (rs rs' : List UpdateReq)
    (hupd : update c r = Except.ok c₁) (hD : r.destination = some D)
    (hfail : ∀ r' ∈ rs, ∃ e, update c₁ r' = Except.error e) :
    c₁.destination = D ∧
    applyAll c₁ rs = c₁ ∧
    (c₁.is_active = true →
      currentDestination (applyAll c₁ rs) = Resolution.dest D) ∧
    (c₁.is_active = false →
      currentDestination (applyAll c₁ rs) = Resolution.Inactive) ∧
    ((applyAll c rs').destination = c.destination ∨
      ∃ r' ∈ rs', r'.destination = some (applyAll c rs').destination) := by
  obtain ⟨hv, hc₁⟩ := update_ok_elim c c₁ r hupd
  have hdest : c₁.destination = D := by simp [hc₁, applyReq, hD]
  have hvar : c₁.variant = Variant.dynamic := by simp [hc₁, applyReq, hv]
  have hstay : applyAll c₁ rs = c₁ := applyAll_of_all_fail rs c₁ hfail
  refine ⟨hdest, hstay, ?_, ?_, applyAll_destination_explicit rs' c⟩
  · intro ha
    rw [hstay]
    simp [currentDestination, hvar, ha, hdest]
  · intro ha
    rw [hstay]
    simp [currentDestination, hvar, ha]

/-- C1 witness: a concrete active dynamic code, updated to a concrete new
destination, keeps that destination through a failing further update and
resolves to it. -/
theorem dest_update_persists_witness :
    update
      { id := 1, public_token := "tok", variant := Variant.dynamic,
        destination := "https://a.example", display_name := none,
        is_active := true, created_at := 0, updated_at := 0 }
      { destination := some "https://b.example", display_name := none,
        is_active := none } =
      Except.ok
        { id := 1, public_token := "tok", variant := Variant.dynamic,
          destination := "https://b.example", display_name := none,
          is_active := true, created_at := 0, updated_at := 0 } ∧
    ({ id := 1, public_token := "tok", variant := Variant.dynamic,
       destination := "https://b.example", display_name := none,
       is_active := true, created_at := 0, updated_at := 0 } :
        Code).destination = "https://b.example" ∧
    applyAll
      { id := 1, public_token := "tok", variant := Variant.dynamic,
        destination := "https://b.example", display_name := none,
        is_active := true, created_at := 0, updated_at := 0 }
      [{ destination := some "", display_name := none, is_active := none }] =
      { id := 1, public_token := "tok", variant := Variant.dynamic,
        destination := "https://b.example", display_name := none,
        is_active := true, created_at := 0, updated_at := 0 } ∧
    currentDestination
      (applyAll
        { id := 1, public_token := "tok", variant := Variant.dynamic,
          destination := "https://b.example", display_name := none,
          is_active := true, created_at := 0, updated_at := 0 }
        [{ destination := some "", display_name := none,
           is_active := none }]) =
      Resolution.dest "https://b.example" := by
  have h := dest_update_persists
    { id := 1, public_token := "tok", variant := Variant.dynamic,
      destination := "https://a.example", display_name := none,
      is_active := true, created_at := 0, updated_at := 0 }
    { id := 1, public_token := "tok", variant := Variant.dynamic,
      destination := "https://b.example", display_name := none,
      is_active := true, created_at := 0, updated_at := 0 }
    { destination := some "https://b.example", display_name := none,
      is_active := none }
    "https://b.example"
    [{ destination := some "", display_name := none, is_active := none }]
    []
    (by rfl) (by rfl)
    (by
      intro r' hr'
      rw [List.mem_singleton] at hr'
      subst hr'
      exact ⟨ApiError.InvalidOperation, by rfl⟩)
  exact ⟨by rfl, h.1, h.2.1, h.2.2.1 (by rfl)⟩

/-- C2: for a dynamic code, an update that provides only `is_active` (as the
client's toggle does) leaves destination, name, token and every other stored
field unchanged; setting it to false makes `currentDestination` return
`Inactive` regardless of the stored destination, and setting it back to true
restores resolution to the exact destination held before the toggle. -/
theorem toggle_is_active_independent (c : Code)
    (h : c.variant = Variant.dynamic) :
    update c { destination := none, display_name := none,
               is_active := some false } =
      Except.ok { c with is_active := false } ∧
    currentDestination { c with is_active := false } = Resolution.Inactive ∧
    update { c with is_active := false }
      { destination := none, display_name := none, is_active := some true } =
      Except.ok { c with is_active := true } ∧
    currentDestination { c with is_active := true } =
      Resolution.dest c.destination := by
  refine ⟨?_, ?_, ?_, ?_⟩
  · simp [update, h, applyReq]
  · simp [currentDestination, h]
  · simp [update, h, applyReq]
  · simp [currentDestination, h]

/-- C2 witness: the toggle round trip on a concrete dynamic code. -/
theorem toggle_is_active_independent_witness :
    update
      { id := 2, public_token := "dt", variant := Variant.dynamic,
        destination := "https://a.example", display_name := some "label",
        is_active := true, created_at := 7, updated_at := 8 }
      { destination := none, display_name := none,
        is_active := some false } =
      Except.ok
        { id := 2, public_token := "dt", variant := Variant.dynamic,
          destination := "https://a.example", display_name := some "label",
          is_active := false, created_at := 7, updated_at := 8 } ∧
    currentDestination
      { id := 2, public_token := "dt", variant := Variant.dynamic,
        destination := "https://a.example", display_name := some "label",
        is_active := false, created_at := 7, updated_at := 8 } =
      Resolution.Inactive ∧
    update
      { id := 2, public_token := "dt", variant := Variant.dynamic,
        destination := "https://a.example", display_name := some "label",
        is_active := false, created_at := 7, updated_at := 8 }
      { destination := none, display_name := none, is_active := some true } =
      Except.ok
        { id := 2, public_token := "dt", variant := Variant.dynamic,
          destination := "https://a.example", display_name := some "label",
          is_active := true, created_at := 7, updated_at := 8 } ∧
    currentDestination
      { id := 2, public_token := "dt", variant := Variant.dynamic,
        destination := "https://a.example", display_name := some "label",
        is_active := true, created_at := 7, updated_at := 8 } =
      Resolution.dest "https://a.example" :=
  toggle_is_active_independent
    { id := 2, public_token := "dt", variant := Variant.dynamic,
      destination := "https://a.example", display_name := some "label",
      is_active := true, created_at := 7, updated_at := 8 } (by rfl)

/-- C5: whatever the variant, the payload of the rendered image is the code's
public token; the token is unchanged by any sequence of updates; and scanning
that payload resolves through the registry and records a scan event for the
code. -/
theorem payload_token_stable_and_recorded (c : Code) (rs : List UpdateReq)
    (reg : Registry) (events : List ScanEvent) (facts : Enriched)
    (fp : String) (now : Nat)
    (hres : resolve reg c.public_token = some c.id) :
    renderPayload (applyAll c rs) = c.public_token ∧
    handleScan reg events (renderPayload (applyAll c rs)) facts fp now =
      record events (mkScanEvent c.id now facts fp) := by
  have hp : renderPayload (applyAll c rs) = c.public_token := by
    simp [renderPayload, applyAll_public_token]
  refine ⟨hp, ?_⟩
  rw [hp]
  simp [handleScan, hres]

/-- C5 witness: a concrete file-variant code whose token is registered; the
rendered payload after an update sequence is still the token and scanning it
records an event for the code. -/
theorem payload_token_stable_and_recorded_witness :
    renderPayload
      (applyAll
        { id := 9, public_token := "pp", variant := Variant.file,
          destination := "blobref", display_name := none, is_active := true,
          created_at := 0, updated_at := 0 }
        [{ destination := some "https://x.example", display_name := none,
           is_active := none }]) = "pp" ∧
    handleScan ⟨[("pp", 9)], 0⟩ []
      (renderPayload
        (applyAll
          { id := 9, public_token := "pp", variant := Variant.file,
            destination := "blobref", display_name := none, is_active := true,
            created_at := 0, updated_at := 0 }
          [{ destination := some "https://x.example", display_name := none,
             is_active := none }]))
      ⟨some "US", none, some "mobile", some "Chrome", none⟩ "fp1" 5 =
      record []
        (mkScanEvent 9 5
          ⟨some "US", none, some "mobile", some "Chrome", none⟩ "fp1") :=
  payload_token_stable_and_recorded
    { id := 9, public_token := "pp", variant := Variant.file,
      destination := "blobref", display_name := none, is_active := true,
      created_at := 0, updated_at := 0 }
    [{ destination := some "https://x.example", display_name := none,
       is_active := none }]
    ⟨[("pp", 9)], 0⟩ []
    ⟨some "US", none, some "mobile", some "Chrome", none⟩ "fp1" 5 (by rfl)

/-- C6 counterexample: the client's filter request does not use the key
`device_type`; the keys it sends are country, city, device and browser. -/
theorem client_filter_keys_counterexample :
    ¬ ((clientFilterParams initialFilters).map Prod.fst =
        ["country", "city", "device_type", "browser"]) := by decide

/-- C6 (amended): the client supplies the filter values under exactly the
keys country, city, device and browser (the `device` key constrains the
event's `device_type` field); an absent filter imposes no constraint and a
present one is an exact-match constraint on its facet. -/
theorem client_filter_keys_and_semantics (f : ClientFilters) (e : ScanEvent)
    (v : String) :
    (clientFilterParams f).map Prod.fst =
      ["country", "city", "device", "browser"] ∧
    toServerFilters initialFilters = noFilters ∧
    matchesFilters noFilters e = true ∧
    matchesFilters { noFilters with country := some v } e =
      (e.country == some v) ∧
    matchesFilters { noFilters with city := some v } e =
      (e.city == some v) ∧
    matchesFilters { noFilters with device_type := some v } e =
      (e.device_type == some v) ∧
    matchesFilters { noFilters with browser := some v } e =
      (e.browser == some v) := by
  refine ⟨rfl, rfl, ?_, ?_, ?_, ?_, ?_⟩ <;> simp [matchesFilters, noFilters]

/-- C9: after a successful update from the list view, the client list keeps
its length and order; position by position, an entry whose id equals the
updated id is replaced by the returned record and every other entry is
unchanged. -/
theorem replaceUpdated_pointwise (qrCodes : List QRItem) (qrId : Nat)
    (updated : QRItem) :
    (replaceUpdated qrCodes qrId updated).length = qrCodes.length ∧
    ∀ i : Nat, (replaceUpdated qrCodes qrId updated)[i]? =
      qrCodes[i]?.map
        (fun qr => if qr.id = qrId then updated else qr) := by
  constructor
  · simp [replaceUpdated]
  · intro i
    simp [replaceUpdated, List.getElem?_map]

/-- C10: the displayed list equals the full list for the `all` tab; for any
other tab value it is exactly the entries whose qr_type equals that value;
the displayed list is never longer than the input and is a subsequence of it
(order preserved). -/
theorem filteredQRCodes_spec (fil : String) (qrCodes : List QRItem) :
    filteredQRCodes "all" qrCodes = qrCodes ∧
    (fil ≠ "all" → filteredQRCodes fil qrCodes =
      qrCodes.filter (fun qr => qr.qr_type == fil)) ∧
    (filteredQRCodes fil qrCodes).length ≤ qrCodes.length ∧
    (filteredQRCodes fil qrCodes).Sublist qrCodes := by
  refine ⟨by simp [filteredQRCodes], ?_, ?_, ?_⟩
  · intro h
    simp [filteredQRCodes, h]
  · unfold filteredQRCodes
    split
    · exact Nat.le_refl _
    · exact List.length_filter_le _ _
  · unfold filteredQRCodes
    split
    · exact List.Sublist.refl _
    · exact List.filter_sublist _

/-- C10 witness: selecting the `url` tab on a concrete two-entry list keeps
exactly the url-typed entry. -/
theorem filteredQRCodes_spec_witness :
    ("url" : String) ≠ "all" ∧
    filteredQRCodes "url"
      [{ id := 1, qr_type := "url", name := "", content := "https://a.example",
         qr_image := "i1", is_active := true, scan_count := 0,
         created_at := 0 },
       { id := 2, qr_type := "file", name := "", content := "blobref",
         qr_image := "i2", is_active := true, scan_count := 3,
         created_at := 0 }] =
      [{ id := 1, qr_type := "url", name := "", content := "https://a.example",
         qr_image := "i1", is_active := true, scan_count := 0,
         created_at := 0 }] := by
  refine ⟨by decide, ?_⟩
  exact ((filteredQRCodes_spec "url"
    [{ id := 1, qr_type := "url", name := "", content := "https://a.example",
       qr_image := "i1", is_active := true, scan_count := 0,
       created_at := 0 },
     { id := 2, qr_type := "file", name := "", content := "blobref",
       qr_image := "i2", is_active := true, scan_count := 3,
       created_at := 0 }]).2.1 (by decide)).trans (by decide)
